import Mathlib

/-!
Verification development for the vm-spawner KVM orchestration core.

Each Python function relevant to the checked claims is shallowly embedded
as a pure Lean function.  Effectful code (filesystem, libvirt API, SSH) is
modelled by threading an explicit environment describing the outcomes of
the external calls, and by returning a trace of the externally visible
operations together with an `Except`-typed result mirroring the Python
exception behaviour.
-/

namespace VmSpawner

/-- Python's `str.lower()`, character by character (kernel-reducible,
unlike `String.toLower`). -/
def pyLower (s : String) : String :=
  ⟨s.data.map Char.toLower⟩

/-- Python's `s.startswith(p)` (kernel-reducible, unlike
`String.isPrefixOf`). -/
def pyStartsWith (s p : String) : Bool :=
  p.data.isPrefixOf s.data

/-! ### Remote path model (`pathlib.Path`, absolute, normalized)

`components` are the path components after the root, so
`RPath.mk ["a", "b"]` stands for `/a/b`.  `parts` mirrors Python's
`Path.parts` (which begins with the root anchor `"/"`), and `toStr`
mirrors `str(path)` for a normalized absolute path. -/

structure RPath where
  components : List String
deriving DecidableEq, Repr

def RPath.parts (p : RPath) : List String :=
  "/" :: p.components

def RPath.toStr (p : RPath) : String :=
  "/" ++ String.intercalate "/" p.components

/-- `len(remote_dest.parts) - 1` from `upload.py`. -/
def RPath.depth (p : RPath) : Nat :=
  p.parts.length - 1

/-! ### `vm_spawner/kvm/upload.py` -/

/-- Kind of `local_src`: directory, regular file, or anything else. -/
inductive SrcKind
  | dir
  | file
  | other
deriving DecidableEq, Repr

/-- The remote bash script run for a directory upload (`upload.py`). -/
def dirCmd : String :=
  "rm -rf \"$0\" && mkdir -m \"$1\" -p \"$0\" && tar -C \"$0\" -xzf -"

/-- The remote bash script run for a single-file upload (`upload.py`). -/
def fileCmd : String :=
  "rm -f \"$0\" && tar -C \"$(dirname \"$0\")\" -xzf -"

/-- One ssh invocation performed by `upload`: the script passed to
`bash -c`, plus its two positional arguments (`str(remote_dest)` and the
octal dir mode, kept as a `Nat` here). -/
structure RemoteOp where
  host : String
  script : String
  destArg : String
  modeArg : Nat
deriving DecidableEq, Repr

inductive UploadError
  | unsafeDestination (dest : String) (depth : Nat)
  | unsupportedSource
deriving DecidableEq, Repr

/-- `depth >= 2 and str(remote_dest).startswith("/tmp/" | "/root/" | "/etc/")`. -/
def isAllowedException (remote_dest : RPath) : Bool :=
  decide (2 ≤ remote_dest.depth) &&
    (pyStartsWith remote_dest.toStr "/tmp/" ||
     pyStartsWith remote_dest.toStr "/root/" ||
     pyStartsWith remote_dest.toStr "/etc/")

/-- Embedding of `upload(host, local_src, remote_dest, ...)`.

On success it returns the list of remote commands run (exactly one ssh
invocation); an error result means the function raised before any remote
command was executed, which is faithful to the source: the depth check
and the archive construction both precede the single `subprocess.run`. -/
def upload (srcKind : SrcKind) (host : String) (remote_dest : RPath)
    (dir_mode : Nat) : Except UploadError (List RemoteOp) :=
  match srcKind with
  | .dir =>
    let depth := remote_dest.depth
    let is_too_shallow := decide (depth < 3)
    if is_too_shallow && !isAllowedException remote_dest then
      .error (.unsafeDestination remote_dest.toStr depth)
    else
      .ok [⟨host, dirCmd, remote_dest.toStr, dir_mode⟩]
  | .file => .ok [⟨host, fileCmd, remote_dest.toStr, dir_mode⟩]
  | .other => .error .unsupportedSource

/-- Remote commands actually executed by an `upload` call. -/
def uploadRemoteOps (r : Except UploadError (List RemoteOp)) : List RemoteOp :=
  match r with
  | .ok ops => ops
  | .error _ => []

/-! ### `vm_spawner/kvm/download.py` -/

/-- How `download_file` classifies and fetches its `url` argument:
either a local filesystem path (with its existence / regular-file
status), or a true remote URL (with the outcome of the network fetch). -/
inductive Source
  | localPath (srcExists : Bool) (srcIsFile : Bool)
  | url (fetchOk : Bool)
deriving DecidableEq, Repr

inductive DlError
  | checksumMismatch
  | sourceNotFound
  | notAFile
  | copyOsError
  | netError
deriving DecidableEq, Repr

/-- Final state of one `download_file` call: whether a file is present at
`destination` when the call returns or raises, and the result. -/
structure DlResult where
  destHasFile : Bool
  result : Except DlError Unit
deriving Repr

/-- `_verify_checksum`: the computed (lowercase hex) digest is compared
against `expected_checksum.lower()`. -/
def checksum_matches (calculated : String) (expected : String) : Bool :=
  calculated == pyLower expected

/-- Embedding of `download_file(url, destination, checksum)`.

* `destExists` — whether `destination` exists on entry;
* `existingHash` — SHA-256 of the pre-existing destination file;
* `fetchedHash` — SHA-256 of the file produced by a fresh copy/download;
* `copyOk` — whether `shutil.copy2` completes without `OSError`.

The branch structure follows the source.  Note that in the local-copy
branch the checksum `ValueError` raised by `_verify_checksum` is *not* an
`OSError`, so it escapes the `except OSError` cleanup handler and the
copied file stays at `destination`; in the URL branch a dedicated
`try/except` around the verification deletes the file first. -/
def download_file (src : Source) (destExists : Bool)
    (existingHash fetchedHash : String) (checksum : Option String)
    (copyOk : Bool) : DlResult :=
  -- "if destination.exists():"
  let preclean : Option DlResult :=
    if destExists then
      match checksum with
      | some c =>
        if checksum_matches existingHash c then
          some ⟨true, .ok ()⟩  -- existing file valid, skip download
        else
          none  -- unlink corrupted file, fall through to fetch
      | none => some ⟨true, .ok ()⟩  -- no checksum, use existing file
    else none
  match preclean with
  | some r => r
  | none =>
    match src with
    | .localPath srcExists srcIsFile =>
      if !srcExists then ⟨false, .error .sourceNotFound⟩
      else if !srcIsFile then ⟨false, .error .notAFile⟩
      else if !copyOk then
        -- OSError during copy: cleanup handler deletes the partial file
        ⟨false, .error .copyOsError⟩
      else
        match checksum with
        | some c =>
          if checksum_matches fetchedHash c then ⟨true, .ok ()⟩
          else
            -- ValueError is not an OSError: no cleanup, file remains
            ⟨true, .error .checksumMismatch⟩
        | none => ⟨true, .ok ()⟩
    | .url fetchOk =>
      if !fetchOk then
        -- network error handlers delete the partial file
        ⟨false, .error .netError⟩
      else
        match checksum with
        | some c =>
          if checksum_matches fetchedHash c then ⟨true, .ok ()⟩
          else
            -- "Checksum verification failed after download ... Deleting file."
            ⟨false, .error .checksumMismatch⟩
        | none => ⟨true, .ok ()⟩

/-! ### `vm_spawner/kvm/create.py` — `ensure_volume_from_file` -/

/-- Where the create-and-upload `try` block of `ensure_volume_from_file`
fails, if anywhere.

* `statOrGroupFail` — `source_file.stat()` raises `OSError` or
  `get_group_id` raises `RemoteCommandError`, before `pool.createXML`;
* `createRaise` — `pool.createXML` raises `libvirt.libvirtError`;
* `createNone` — `pool.createXML` returns `None`;
* `sendFail` — `stream.send` returns `-1` or raises during the chunked
  upload loop;
* `finishFail` — `stream.finish` returns `-1` or raises;
* `success` — the whole block completes. -/
inductive UploadPhase
  | statOrGroupFail
  | createRaise
  | createNone
  | sendFail
  | finishFail
  | success
deriving DecidableEq, Repr

inductive VolErr
  | fetchFailed
  | sourceNotFound
  | volumeProvisionFailed
deriving DecidableEq, Repr

/-- Outcome of one `ensure_volume_from_file` run:

* `newVolInPool` — a volume created by this run is still defined in the
  pool when the call returns or raises;
* `deleteAttempted` — the cleanup handler called `created_vol.delete(0)`;
* `result` — normal return or the raised exception. -/
structure VolOutcome where
  newVolInPool : Bool
  deleteAttempted : Bool
  result : Except VolErr Unit
deriving Repr

/-- Embedding of `ensure_volume_from_file(conn, pool, host, vol_name, ...)`.

* `volExists` — the initial `storageVolLookupByName` finds the volume;
* `downloadOk` — `download_file` completes (otherwise its exception
  propagates directly, nothing was created yet);
* `sourceIsFile` — the `source_file.is_file()` check after the download;
* `deleteOk` — whether the best-effort `created_vol.delete(0)` in the
  exception handlers succeeds (its own errors are suppressed);
* `phase` — where the create-and-upload block fails.

Both `except` handlers abort the stream and, when `created_vol` is set,
attempt to delete it before re-raising a `RuntimeError`; this is the
rollback the model captures. -/
def ensure_volume_from_file (volExists downloadOk sourceIsFile deleteOk : Bool)
    (phase : UploadPhase) : VolOutcome :=
  if volExists then ⟨false, false, .ok ()⟩
  else if !downloadOk then ⟨false, false, .error .fetchFailed⟩
  else if !sourceIsFile then ⟨false, false, .error .sourceNotFound⟩
  else
    -- "created_vol is not None" at the point the failure is handled
    let created : Bool :=
      match phase with
      | .statOrGroupFail | .createRaise | .createNone => false
      | .sendFail | .finishFail | .success => true
    match phase with
    | .success => ⟨true, false, .ok ()⟩
    | _ => ⟨created && !deleteOk, created, .error .volumeProvisionFailed⟩

/-! ### `vm_spawner/kvm/network.py` — `get_domain_ip_from_network` -/

inductive IPAddrType
  | ipv4
  | ipv6
deriving DecidableEq, Repr

/-- One entry of `network.DHCPLeases()`.  `mac` models
`lease.get("mac", "")` (missing key defaults to the empty string);
`ipaddr` and `addrType` model `lease.get("ipaddr")` / `lease.get("type")`. -/
structure Lease where
  mac : String
  ipaddr : Option String
  addrType : Option IPAddrType
deriving DecidableEq, Repr

/-- One `<interface>` element of the domain XML: `source.get("network")`
and `mac.get("address")`. -/
structure Iface where
  sourceNetwork : Option String
  macAddress : Option String
deriving DecidableEq, Repr

/-- The collection loop over `./devices/interface`: keep
`mac_address.lower()` whenever the interface's source network equals
`network_name` and the MAC attribute is present and non-empty (truthy). -/
def targetMacsOf (interfaces : List Iface) (network_name : String) : List String :=
  interfaces.filterMap fun d =>
    match d.sourceNetwork, d.macAddress with
    | some net, some mac =>
      if net = network_name ∧ mac ≠ "" then some (pyLower mac) else none
    | _, _ => none

/-- The per-lease filter: `ip_addr and lease_mac in target_macs and
ip_type == VIR_IP_ADDR_TYPE_IPV4`. -/
def leaseMatches (target_macs : List String) (l : Lease) : Bool :=
  match l.ipaddr with
  | none => false
  | some ip =>
    decide (ip ≠ "") && decide (pyLower l.mac ∈ target_macs) &&
      decide (l.addrType = some IPAddrType.ipv4)

/-- Scan of one lease table: the first matching lease's `ipaddr`. -/
def findLeaseIP (target_macs : List String) : List Lease → Option String
  | [] => none
  | l :: rest =>
    if leaseMatches target_macs l then l.ipaddr
    else findLeaseIP target_macs rest

/-- The `for attempt in range(retries)` polling loop, started at
`attempt` with `rem` iterations left.  Returns the found IP (or `none`
after exhaustion) together with the number of `DHCPLeases()` queries
performed. -/
def pollFrom (leases : Nat → List Lease) (target_macs : List String) :
    Nat → Nat → Option String × Nat
  | _, 0 => (none, 0)
  | attempt, Nat.succ rem =>
    match findLeaseIP target_macs (leases attempt) with
    | some ip => (some ip, 1)
    | none =>
      let p := pollFrom leases target_macs (attempt + 1) rem
      (p.1, p.2 + 1)

/-- External state visible to `get_domain_ip_from_network`: existence and
activity of the domain and network, the domain's XML interfaces, and the
network's lease table as seen by the query made on each attempt. -/
structure NetEnv where
  domainExists : Bool
  networkExists : Bool
  domainActive : Bool
  networkActive : Bool
  interfaces : List Iface
  leases : Nat → List Lease

/-- Embedding of `get_domain_ip_from_network(conn, domain_name,
network_name, retries, delay, verbose)`.  Returns the `str | None`
result paired with the number of lease-table queries performed.  All
early `return None` paths (missing/inactive domain or network, no
matching interface MAC) perform zero queries. -/
def get_domain_ip_from_network (env : NetEnv) (network_name : String)
    (retries : Nat) : Option String × Nat :=
  if env.domainExists = false then (none, 0)
  else if env.networkExists = false then (none, 0)
  else if env.domainActive = false then (none, 0)
  else if env.networkActive = false then (none, 0)
  else
    let target_macs := targetMacsOf env.interfaces network_name
    if target_macs = [] then (none, 0)
    else pollFrom env.leases target_macs 0 retries

/-! ### `vm_spawner/kvm/install.py` — `install_domain_with_virt_install` -/

inductive InstallErr
  | uploadFailed
  | installCommandFailed
deriving DecidableEq, Repr

/-- Externally visible behaviour of one `install_domain_with_virt_install`
call: the cloud-init uploads that completed (local path, remote path),
the remote command executed via ssh (if any), and the result. -/
structure InstallTrace where
  uploads : List (String × String)
  remoteCmd : Option (List String)
  result : Except InstallErr Unit
deriving Repr

/-- `shell_cmd` with `use_nix_shell = True`. -/
def nix_shell_cmd : List String :=
  ["nix", "shell", "nixpkgs#virt-manager", "--command"]

/-- Construction of `virt_install_cmd` in `install.py`, argument for
argument. -/
def build_virt_install_cmd (libvirt_system_uri name : String)
    (memory_mb vcpu : Nat) (pool_name disk_volume_name : String)
    (cdrom_volume_name : Option String) (primary_network : String)
    (isolated_network : Option String) (os_variant : String)
    (remote_user_data_path remote_network_config_path : String)
    (extra_virt_install_args : List String) : List String :=
  ["virt-install",
   "--connect=" ++ libvirt_system_uri,
   "--name=" ++ name,
   "--memory=" ++ toString memory_mb,
   "--vcpus=" ++ toString vcpu]
  ++ (match cdrom_volume_name with
      | some cdrom =>
        ["--disk=vol=" ++ pool_name ++ "/" ++ disk_volume_name ++ ",device=disk,bus=virtio",
         "--disk=vol=" ++ pool_name ++ "/" ++ cdrom ++ ",device=cdrom,bus=sata,readonly=on",
         "--filesystem=type=mount,source=/nix/store,target=hoststore,readonly=on",
         "--filesystem=type=mount,source=/nix/var/nix/db,target=hostdb,readonly=on"]
      | none =>
        ["--disk=vol=" ++ pool_name ++ "/" ++ disk_volume_name ++ ",device=disk,bus=virtio"])
  ++ ["--network=network=" ++ primary_network ++ ",model=virtio"]
  ++ (match isolated_network with
      | some iso => ["--network=network=" ++ iso ++ ",model=virtio"]
      | none => [])
  ++ ["--os-variant=" ++ os_variant]
  ++ (match cdrom_volume_name with
      | none =>
        ["--import",
         "--cloud-init=user-data=" ++ remote_user_data_path
           ++ ",network-config=" ++ remote_network_config_path]
      | some _ => [])
  ++ ["--console=pty,target_type=serial", "--machine=q35"]
  ++ (match cdrom_volume_name with
      | some _ => ["--boot=boot0.dev=hd,boot1.dev=cdrom"]
      | none => ["--boot=hd"])
  ++ ["--noautoconsole", "--check=disk_size=off", "--video=qxl",
      "--rng=/dev/urandom,model=virtio"]
  ++ extra_virt_install_args

/-- Embedding of `install_domain_with_virt_install`.

* `domainExists` — `conn.lookupByName(name)` succeeds (the function then
  logs and returns immediately: no uploads, no remote command);
* `upload1Ok` / `upload2Ok` — the two cloud-init uploads (only attempted
  when there is no cdrom volume);
* `runOk` — the remote virt-install command exits zero. -/
def install_domain_with_virt_install (domainExists upload1Ok upload2Ok runOk : Bool)
    (name : String) (memory_mb vcpu : Nat) (disk_volume_name : String)
    (cdrom_volume_name : Option String) (pool_name primary_network : String)
    (isolated_network : Option String) (os_variant : String)
    (user_data_path network_config_path remote_tmp_dir : String)
    (libvirt_system_uri : String)
    (extra_virt_install_args : Option (List String)) : InstallTrace :=
  if domainExists then ⟨[], none, .ok ()⟩
  else
    let remote_user_data_path := remote_tmp_dir ++ "/" ++ name ++ "-user-data.cfg"
    let remote_network_config_path :=
      remote_tmp_dir ++ "/" ++ name ++ "-network-config.cfg"
    let cmd := nix_shell_cmd ++ build_virt_install_cmd libvirt_system_uri name
      memory_mb vcpu pool_name disk_volume_name cdrom_volume_name
      primary_network isolated_network os_variant remote_user_data_path
      remote_network_config_path (extra_virt_install_args.getD [])
    match cdrom_volume_name with
    | none =>
      if !upload1Ok then ⟨[], none, .error .uploadFailed⟩
      else if !upload2Ok then
        ⟨[(user_data_path, remote_user_data_path)], none, .error .uploadFailed⟩
      else
        let ups := [(user_data_path, remote_user_data_path),
                    (network_config_path, remote_network_config_path)]
        if runOk then ⟨ups, some cmd, .ok ()⟩
        else ⟨ups, some cmd, .error .installCommandFailed⟩
    | some _ =>
      -- "Skipping cloud-init upload for ISO-based installation"
      if runOk then ⟨[], some cmd, .ok ()⟩
      else ⟨[], some cmd, .error .installCommandFailed⟩

/-! ### `vm_spawner/kvm/create.py` — `create_blank_disk` -/

/-- Embedding of `create_blank_disk(storage_pool, remote_host, disk_name,
disk_size_gb, ssh_key)`: the remote disk path, and the `qemu-img` argv
run remotely when the disk does not already exist (`diskExists` is the
result of the remote `test -f` probe). -/
def create_blank_disk (pool_path disk_name : String) (disk_size_gb : Nat)
    (diskExists : Bool) : String × Option (List String) :=
  let remote_disk_path := pool_path ++ "/" ++ disk_name ++ ".qcow2"
  if diskExists then (remote_disk_path, none)
  else
    (remote_disk_path,
     some ["qemu-img", "create", "-f", "qcow2", remote_disk_path,
           toString disk_size_gb ++ "G"])

/-! ### `vm_spawner/kvm/deploy_vm.py` — `deploy_vm` -/

/-- The `DeployVMConfig` dataclass, field for field (paths as strings). -/
structure DeployVMConfig where
  remote_user_host : String
  libvirt_uri : String
  remote_tmp_dir : String
  libvirt_remote_uri : String
  pool_name : String
  pool_type : String
  pool_path : String
  base_image_url : String
  base_image_checksum : Option String
  base_image_vol_name : String
  base_image_format : String
  local_download_dir : String
  domain_name : String
  memory_mb : Nat
  vcpu : Nat
  primary_network : String
  isolated_network : Option String
  os_variant : String
  user_data : String
  network_config : String
  virt_install_extra_args : Option (List String)

/-- Environment for the disk-setup and install stages of one
`deploy_vm` run (connection, pool and base-volume provisioning assumed
already successful, as the modelled claims presuppose). -/
structure DeployEnv where
  domainExists : Bool
  blankDiskExists : Bool
  upload1Ok : Bool
  upload2Ok : Bool
  runOk : Bool

/-- Trace of the disk-setup and install stages of `deploy_vm`:

* `blankDiskCall` — arguments `(disk_name, disk_size_gb)` passed to
  `create_blank_disk`, when the ISO branch is taken;
* `blankDiskQemuCmd` — the remote `qemu-img` command it ran, if any;
* `linkedCloneCall` — `clone_img_name` passed to
  `create_linked_clone_disk`, when the non-ISO branch is taken;
* `install` — the `install_domain_with_virt_install` trace. -/
structure DeployTrace where
  blankDiskCall : Option (String × Nat)
  blankDiskQemuCmd : Option (List String)
  linkedCloneCall : Option String
  install : InstallTrace
deriving Repr

/-- Embedding of step 4 ("Handle disk setup based on image format") and
step 5 ("Create Domain using virt-install") of `deploy_vm(cfg, ssh_key)`. -/
def deploy_vm (cfg : DeployVMConfig) (env : DeployEnv) : DeployTrace :=
  -- is_iso = cfg.base_image_format.lower() == "iso"
  if pyLower cfg.base_image_format = "iso" then
    let bd := create_blank_disk cfg.pool_path cfg.domain_name 20 env.blankDiskExists
    -- disk_volume_name = blank_disk_path.name
    let disk_volume_name := cfg.domain_name ++ ".qcow2"
    let cdrom_volume_name := some cfg.base_image_vol_name
    ⟨some (cfg.domain_name, 20), bd.2, none,
     install_domain_with_virt_install env.domainExists env.upload1Ok
       env.upload2Ok env.runOk cfg.domain_name cfg.memory_mb cfg.vcpu
       disk_volume_name cdrom_volume_name cfg.pool_name cfg.primary_network
       cfg.isolated_network cfg.os_variant cfg.user_data cfg.network_config
       cfg.remote_tmp_dir cfg.libvirt_remote_uri cfg.virt_install_extra_args⟩
  else
    -- clone path: <base dir>/<domain_name>.qcow2; volume name is its filename
    let disk_volume_name := cfg.domain_name ++ ".qcow2"
    ⟨none, none, some cfg.domain_name,
     install_domain_with_virt_install env.domainExists env.upload1Ok
       env.upload2Ok env.runOk cfg.domain_name cfg.memory_mb cfg.vcpu
       disk_volume_name none cfg.pool_name cfg.primary_network
       cfg.isolated_network cfg.os_variant cfg.user_data cfg.network_config
       cfg.remote_tmp_dir cfg.libvirt_remote_uri cfg.virt_install_extra_args⟩

/-! ### `vm_spawner/kvm/destroy.py` — `delete_vm` -/

/-- Result of the initial `conn.lookupByName(domain_name)`. -/
inductive DomLookup
  | noDomain
  | otherErr
  | found (isActive : Bool)
deriving DecidableEq, Repr

inductive DestroyErr
  | lookupFailed
  | destroyFailed
  | undefineFailed
deriving DecidableEq, Repr

/-- Externally visible behaviour of one `delete_vm` call. -/
structure DestroyTrace where
  volumeLookups : Nat
  volumesDeleted : List String
  connClosed : Bool
  result : Except DestroyErr Unit
deriving Repr

/-- Step 5 of `delete_vm`: collect the volumes to delete, first by
(pool, volume) name, then by path, skipping path hits already collected.
`volByName` / `volByPath` give the identity of the volume found by each
lookup, or `none` when the lookup fails. -/
def collectVolumes (pool_and_vol_names : List (String × String))
    (disk_paths : List String)
    (volByName : String × String → Option String)
    (volByPath : String → Option String) : List String :=
  let byName := pool_and_vol_names.filterMap volByName
  disk_paths.foldl
    (fun acc p =>
      match volByPath p with
      | some v => if v ∈ acc then acc else acc ++ [v]
      | none => acc)
    byName

/-- Embedding of `delete_vm(host, domain_name, ssh_key)`.

* `lookup` — outcome of the domain lookup; `noDomain` is the
  "Assuming already deleted" early return;
* `destroyOk` — `dom.destroy()` succeeds when the domain is active;
* `undefineOk` — `dom.undefineFlags(...)` succeeds;
* `pool_and_vol_names` / `disk_paths` — disk references parsed from the
  domain XML;
* `volByName` / `volByPath` — the storage-volume lookups.

Individual volume-delete failures are logged, never raised, so every
collected volume counts as a delete attempt.  The connection is closed
in the `finally` block on every path. -/
def delete_vm (lookup : DomLookup) (destroyOk undefineOk : Bool)
    (pool_and_vol_names : List (String × String)) (disk_paths : List String)
    (volByName : String × String → Option String)
    (volByPath : String → Option String) : DestroyTrace :=
  match lookup with
  | .noDomain => ⟨0, [], true, .ok ()⟩
  | .otherErr => ⟨0, [], true, .error .lookupFailed⟩
  | .found active =>
    if active && !destroyOk then ⟨0, [], true, .error .destroyFailed⟩
    else if !undefineOk then ⟨0, [], true, .error .undefineFailed⟩
    else
      ⟨pool_and_vol_names.length + disk_paths.length,
       collectVolumes pool_and_vol_names disk_paths volByName volByPath,
       true, .ok ()⟩

/-! ## Theorems -/

/-- C2: for every directory upload whose remote destination has depth < 3
and is not an allowed depth-≥-2 exception under `/tmp/`, `/root/` or
`/etc/`, `upload` fails with the unsafe-destination error and performs no
remote operation. -/
theorem upload_unsafe_dir_rejected (host : String) (d : RPath) (m : Nat)
    (hdepth : d.depth < 3) (hexc : isAllowedException d = false) :
    upload .dir host d m = .error (.unsafeDestination d.toStr d.depth) ∧
    uploadRemoteOps (upload .dir host d m) = [] := by
  constructor <;> simp [upload, uploadRemoteOps, hdepth, hexc]

/-- Witness for `upload_unsafe_dir_rejected` at `/home/user` (depth 2). -/
theorem upload_unsafe_dir_rejected_witness :
    upload .dir "kvm@host" ⟨["home", "user"]⟩ 448 =
      .error (.unsafeDestination (RPath.toStr ⟨["home", "user"]⟩)
        (RPath.depth ⟨["home", "user"]⟩)) ∧
    uploadRemoteOps (upload .dir "kvm@host" ⟨["home", "user"]⟩ 448) = [] :=
  upload_unsafe_dir_rejected "kvm@host" ⟨["home", "user"]⟩ 448
    (by decide) (by decide)

/-- C9: for every single-file upload the destination depth check is
skipped — `upload` succeeds with exactly one remote command regardless of
how shallow the destination is — and that command removes any existing
file at the destination (`rm -f "$0"`) before extracting. -/
theorem upload_file_skips_depth_check (host : String) (d : RPath) (m : Nat) :
    upload .file host d m = .ok [⟨host, fileCmd, d.toStr, m⟩] ∧
    pyStartsWith fileCmd "rm -f \"$0\" && " = true :=
  ⟨rfl, by decide⟩

/-- C1 (failing input): a local-path source whose copy succeeds but whose
SHA-256 does not match the given checksum makes `download_file` raise the
checksum error while the copied file is still present at `destination` —
the `except OSError` cleanup handler of the local-copy branch does not
catch the `ValueError`, so no deletion happens, contradicting the claim
and the spec ("delete the file on mismatch"). -/
theorem download_file_local_copy_mismatch_keeps_file :
    download_file (.localPath true true) false "" "1f2e3d" (some "ABCDEF") true =
      ⟨true, .error .checksumMismatch⟩ :=
  rfl

/-- Contrast for C1: the URL-download branch does delete the file on a
checksum mismatch before re-raising the verification error. -/
theorem download_file_url_mismatch_deletes (h1 h2 c : String)
    (hm : checksum_matches h2 c = false) :
    download_file (.url true) false h1 h2 (some c) true =
      ⟨false, .error .checksumMismatch⟩ := by
  simp [download_file, hm]

/-- C3: when the volume was absent and `ensure_volume_from_file` fails
during metadata definition, during the chunked stream upload, or at
stream finish, the call raises the volume-provisioning error, attempts to
delete the partially created volume whenever one was defined, and (when
that best-effort delete succeeds) leaves no new volume in the pool. -/
theorem ensure_volume_rollback (deleteOk : Bool) (phase : UploadPhase)
    (h : phase = .createRaise ∨ phase = .createNone ∨
      phase = .sendFail ∨ phase = .finishFail) :
    (ensure_volume_from_file false true true deleteOk phase).result =
        .error .volumeProvisionFailed ∧
    (deleteOk = true →
      (ensure_volume_from_file false true true deleteOk phase).newVolInPool = false) ∧
    ((phase = .sendFail ∨ phase = .finishFail) →
      (ensure_volume_from_file false true true deleteOk phase).deleteAttempted = true) := by
  rcases h with h | h | h | h <;> subst h <;> cases deleteOk <;>
    simp [ensure_volume_from_file]

/-- Witness for `ensure_volume_rollback`: stream-send failure with a
successful best-effort delete. -/
theorem ensure_volume_rollback_witness :
    (ensure_volume_from_file false true true true .sendFail).result =
        .error .volumeProvisionFailed ∧
    (true = true →
      (ensure_volume_from_file false true true true .sendFail).newVolInPool = false) ∧
    ((UploadPhase.sendFail = .sendFail ∨ UploadPhase.sendFail = .finishFail) →
      (ensure_volume_from_file false true true true .sendFail).deleteAttempted = true) :=
  ensure_volume_rollback true .sendFail (Or.inr (Or.inr (Or.inl rfl)))

/-- Helper: a lease table with no matching lease yields no IP. -/
theorem findLeaseIP_eq_none (target_macs : List String) (ls : List Lease)
    (h : ∀ l ∈ ls, leaseMatches target_macs l = false) :
    findLeaseIP target_macs ls = none := by
  induction ls with
  | nil => rfl
  | cons l rest ih =>
    have hl := h l (List.mem_cons_self l rest)
    have hr : ∀ x ∈ rest, leaseMatches target_macs x = false :=
      fun x hx => h x (List.mem_cons_of_mem l hx)
    simp [findLeaseIP, hl, ih hr]

/-- Helper: with no match on any attempt, the poll loop performs exactly
one lease query per attempt and returns `none`. -/
theorem pollFrom_no_match (leases : Nat → List Lease) (tm : List String)
    (h : ∀ i, findLeaseIP tm (leases i) = none) :
    ∀ a r, pollFrom leases tm a r = (none, r) := by
  intro a r
  induction r generalizing a with
  | zero => rfl
  | succ n ih => simp [pollFrom, h a, ih (a + 1)]

/-- C4: with `retries = 3`, an existing active domain and network, at
least one MAC on the target network, and a lease table that never
contains a matching IPv4 lease, `get_domain_ip_from_network` queries the
lease table exactly 3 times and returns the not-found outcome `none`
instead of raising. -/
theorem resolve_ip_retry_exhaustion (env : NetEnv) (network_name : String)
    (h1 : env.domainExists = true) (h2 : env.networkExists = true)
    (h3 : env.domainActive = true) (h4 : env.networkActive = true)
    (h5 : targetMacsOf env.interfaces network_name ≠ [])
    (h6 : ∀ i, ∀ l ∈ env.leases i,
      leaseMatches (targetMacsOf env.interfaces network_name) l = false) :
    get_domain_ip_from_network env network_name 3 = (none, 3) := by
  have hnone : ∀ i,
      findLeaseIP (targetMacsOf env.interfaces network_name) (env.leases i) = none :=
    fun i => findLeaseIP_eq_none _ _ (h6 i)
  simp [get_domain_ip_from_network, h1, h2, h3, h4, h5,
    pollFrom_no_match env.leases _ hnone 0 3]

/-- Witness for `resolve_ip_retry_exhaustion`: one interface on `net0`,
an always-empty lease table. -/
theorem resolve_ip_retry_exhaustion_witness :
    get_domain_ip_from_network
      ⟨true, true, true, true, [⟨some "net0", some "52:54:00:00:00:01"⟩],
        fun _ => []⟩ "net0" 3 = (none, 3) :=
  resolve_ip_retry_exhaustion _ "net0" rfl rfl rfl rfl (by decide)
    (fun _ l hl => absurd hl (List.not_mem_nil l))

/-- C5 (counterexample): a lease table that does contain an IPv4 lease
with MAC `aa:bb:cc:dd:ee:ff` (upper-case variant) and address
`10.0.0.5`, but preceded by another matching lease with address
`10.0.0.6`: the function returns the first match `10.0.0.6`, not
`10.0.0.5`, so the claim as stated fails. -/
theorem resolve_ip_first_match_counterexample :
    get_domain_ip_from_network
      ⟨true, true, true, true, [⟨some "net0", some "AA:BB:CC:DD:EE:FF"⟩],
        fun _ =>
          [⟨"aa:bb:cc:dd:ee:ff", some "10.0.0.6", some .ipv4⟩,
           ⟨"AA:BB:CC:DD:EE:FF", some "10.0.0.5", some .ipv4⟩]⟩ "net0" 3 =
      (some "10.0.0.6", 1) ∧
    (some "10.0.0.6" : Option String) ≠ some "10.0.0.5" :=
  ⟨rfl, by decide⟩

/-- Helper: the first matching lease of a table determines the result. -/
theorem findLeaseIP_append_first_match (tm : List String)
    (pre post : List Lease) (l : Lease)
    (hpre : ∀ x ∈ pre, leaseMatches tm x = false)
    (hl : leaseMatches tm l = true) :
    findLeaseIP tm (pre ++ l :: post) = l.ipaddr := by
  induction pre with
  | nil => simp [findLeaseIP, hl]
  | cons x rest ih =>
    have hx := hpre x (List.mem_cons_self x rest)
    simp only [List.cons_append, findLeaseIP, hx, Bool.false_eq_true, if_false]
    exact ih (fun y hy => hpre y (List.mem_cons_of_mem x hy))

/-- C5 (amended): if the domain has an interface on the target network
with MAC `AA:BB:CC:DD:EE:FF` in any letter case, and the lease table's
first lease matching the domain's MACs is an IPv4 lease with MAC
`aa:bb:cc:dd:ee:ff` in any letter case and address `10.0.0.5`, then
`get_domain_ip_from_network` returns `10.0.0.5` after exactly one lease
query: the MAC comparison is case-insensitive and only IPv4 leases are
considered. -/
theorem resolve_ip_case_insensitive_first_match
    (env : NetEnv) (domMac leaseMac : String) (pre post : List Lease)
    (retries : Nat)
    (h1 : env.domainExists = true) (h2 : env.networkExists = true)
    (h3 : env.domainActive = true) (h4 : env.networkActive = true)
    (hiface : Iface.mk (some "net0") (some domMac) ∈ env.interfaces)
    (hdm : pyLower domMac = "aa:bb:cc:dd:ee:ff")
    (hlm : pyLower leaseMac = "aa:bb:cc:dd:ee:ff")
    (hl0 : env.leases 0 =
      pre ++ Lease.mk leaseMac (some "10.0.0.5") (some .ipv4) :: post)
    (hpre : ∀ l ∈ pre,
      leaseMatches (targetMacsOf env.interfaces "net0") l = false)
    (hr : 0 < retries) :
    get_domain_ip_from_network env "net0" retries = (some "10.0.0.5", 1) := by
  have hne : domMac ≠ "" := by
    intro h
    rw [h] at hdm
    exact absurd hdm (by decide)
  have hmem : "aa:bb:cc:dd:ee:ff" ∈ targetMacsOf env.interfaces "net0" := by
    refine List.mem_filterMap.mpr ⟨Iface.mk (some "net0") (some domMac), hiface, ?_⟩
    simp [hne, hdm]
  have hl : leaseMatches (targetMacsOf env.interfaces "net0")
      (Lease.mk leaseMac (some "10.0.0.5") (some .ipv4)) = true := by
    simp [leaseMatches, hlm, hmem]
  have hfind : findLeaseIP (targetMacsOf env.interfaces "net0")
      (env.leases 0) = some "10.0.0.5" := by
    rw [hl0]
    exact findLeaseIP_append_first_match _ pre post _ hpre hl
  have hmacs : targetMacsOf env.interfaces "net0" ≠ [] :=
    List.ne_nil_of_mem hmem
  obtain ⟨r, rfl⟩ : ∃ r, retries = r + 1 := ⟨retries - 1, by omega⟩
  simp [get_domain_ip_from_network, h1, h2, h3, h4, hmacs, pollFrom, hfind]

/-- Witness for `resolve_ip_case_insensitive_first_match`: upper-case
descriptor MAC, lower-case lease MAC, singleton lease table. -/
theorem resolve_ip_case_insensitive_first_match_witness :
    get_domain_ip_from_network
      ⟨true, true, true, true, [⟨some "net0", some "AA:BB:CC:DD:EE:FF"⟩],
        fun _ => [⟨"aa:bb:cc:dd:ee:ff", some "10.0.0.5", some .ipv4⟩]⟩
      "net0" 3 = (some "10.0.0.5", 1) :=
  resolve_ip_case_insensitive_first_match _ "AA:BB:CC:DD:EE:FF"
    "aa:bb:cc:dd:ee:ff" [] [] 3 rfl rfl rfl rfl (by simp) (by decide)
    (by decide) rfl (fun l hl => absurd hl (List.not_mem_nil l)) (by decide)

/-- C6: when a domain with the given name already exists, the install
call is a no-op: no cloud-init uploads, no remote command, no error —
so a second `install` with identical arguments performs the installation
side effect at most once. -/
theorem install_existing_domain_noop (u1 u2 r : Bool) (name : String)
    (memory_mb vcpu : Nat) (disk_volume_name : String)
    (cdrom_volume_name : Option String) (pool_name primary_network : String)
    (isolated_network : Option String)
    (os_variant user_data_path network_config_path remote_tmp_dir
      libvirt_system_uri : String) (extra : Option (List String)) :
    install_domain_with_virt_install true u1 u2 r name memory_mb vcpu
        disk_volume_name cdrom_volume_name pool_name primary_network
        isolated_network os_variant user_data_path network_config_path
        remote_tmp_dir libvirt_system_uri extra =
      ⟨[], none, .ok ()⟩ :=
  rfl

/-- C7: an ISO-format deploy (fresh domain, no pre-existing blank disk)
creates a 20 GB blank data disk for the domain, uploads no cloud-init
files, and generates an install command that attaches the ISO volume as
a read-only cdrom device and boots the data disk first (`hd` at `boot0`,
`cdrom` at `boot1`). -/
theorem deploy_iso_properties (cfg : DeployVMConfig) (env : DeployEnv)
    (hiso : pyLower cfg.base_image_format = "iso")
    (hdom : env.domainExists = false)
    (hdisk : env.blankDiskExists = false) :
    (deploy_vm cfg env).blankDiskCall = some (cfg.domain_name, 20) ∧
    (deploy_vm cfg env).blankDiskQemuCmd =
      some ["qemu-img", "create", "-f", "qcow2",
            cfg.pool_path ++ "/" ++ cfg.domain_name ++ ".qcow2", "20G"] ∧
    (deploy_vm cfg env).install.uploads = [] ∧
    ∃ cmd, (deploy_vm cfg env).install.remoteCmd = some cmd ∧
      ("--disk=vol=" ++ cfg.pool_name ++ "/" ++ cfg.base_image_vol_name ++
        ",device=cdrom,bus=sata,readonly=on") ∈ cmd ∧
      "--boot=boot0.dev=hd,boot1.dev=cdrom" ∈ cmd := by
  refine ⟨?_, ?_, ?_, ?_⟩
  · simp [deploy_vm, hiso]
  · simp only [deploy_vm, create_blank_disk, hiso, hdisk, if_true, if_false,
      Bool.false_eq_true, reduceIte]
    rfl
  · cases hrun : env.runOk <;>
      simp [deploy_vm, install_domain_with_virt_install, hiso, hdom, hrun]
  · refine ⟨nix_shell_cmd ++ build_virt_install_cmd cfg.libvirt_remote_uri
      cfg.domain_name cfg.memory_mb cfg.vcpu cfg.pool_name
      (cfg.domain_name ++ ".qcow2") (some cfg.base_image_vol_name)
      cfg.primary_network cfg.isolated_network cfg.os_variant
      (cfg.remote_tmp_dir ++ "/" ++ cfg.domain_name ++ "-user-data.cfg")
      (cfg.remote_tmp_dir ++ "/" ++ cfg.domain_name ++ "-network-config.cfg")
      (cfg.virt_install_extra_args.getD []), ?_, ?_, ?_⟩
    · cases hrun : env.runOk <;>
        simp [deploy_vm, install_domain_with_virt_install, hiso, hdom, hrun]
    · cases cfg.isolated_network <;>
        simp [build_virt_install_cmd, nix_shell_cmd]
    · cases cfg.isolated_network <;>
        simp [build_virt_install_cmd, nix_shell_cmd]

/-- Witness for `deploy_iso_properties` at a concrete ISO deploy
configuration. -/
theorem deploy_iso_properties_witness :
    (deploy_vm
        ⟨"kvm@host", "qemu+ssh://kvm@host/system", "/tmp/vm_spawner.x",
          "qemu:///system", "nixos_pool_py", "dir",
          "/var/lib/libvirt/images/nixos-pool-py", "/images/nixos.iso",
          none, "nixos.iso", "iso", "/tmp/dl", "nixos-1", 6144, 4,
          "default", none, "nixos-unstable", "/assets/cloud_init.cfg",
          "/assets/network_config.cfg", none⟩
        ⟨false, false, true, true, true⟩).blankDiskCall =
      some ("nixos-1", 20) ∧
    (deploy_vm
        ⟨"kvm@host", "qemu+ssh://kvm@host/system", "/tmp/vm_spawner.x",
          "qemu:///system", "nixos_pool_py", "dir",
          "/var/lib/libvirt/images/nixos-pool-py", "/images/nixos.iso",
          none, "nixos.iso", "iso", "/tmp/dl", "nixos-1", 6144, 4,
          "default", none, "nixos-unstable", "/assets/cloud_init.cfg",
          "/assets/network_config.cfg", none⟩
        ⟨false, false, true, true, true⟩).blankDiskQemuCmd =
      some ["qemu-img", "create", "-f", "qcow2",
            "/var/lib/libvirt/images/nixos-pool-py" ++ "/" ++ "nixos-1" ++ ".qcow2",
            "20G"] ∧
    (deploy_vm
        ⟨"kvm@host", "qemu+ssh://kvm@host/system", "/tmp/vm_spawner.x",
          "qemu:///system", "nixos_pool_py", "dir",
          "/var/lib/libvirt/images/nixos-pool-py", "/images/nixos.iso",
          none, "nixos.iso", "iso", "/tmp/dl", "nixos-1", 6144, 4,
          "default", none, "nixos-unstable", "/assets/cloud_init.cfg",
          "/assets/network_config.cfg", none⟩
        ⟨false, false, true, true, true⟩).install.uploads = [] ∧
    ∃ cmd,
      (deploy_vm
          ⟨"kvm@host", "qemu+ssh://kvm@host/system", "/tmp/vm_spawner.x",
            "qemu:///system", "nixos_pool_py", "dir",
            "/var/lib/libvirt/images/nixos-pool-py", "/images/nixos.iso",
            none, "nixos.iso", "iso", "/tmp/dl", "nixos-1", 6144, 4,
            "default", none, "nixos-unstable", "/assets/cloud_init.cfg",
            "/assets/network_config.cfg", none⟩
          ⟨false, false, true, true, true⟩).install.remoteCmd = some cmd ∧
      ("--disk=vol=" ++ "nixos_pool_py" ++ "/" ++ "nixos.iso" ++
        ",device=cdrom,bus=sata,readonly=on") ∈ cmd ∧
      "--boot=boot0.dev=hd,boot1.dev=cdrom" ∈ cmd :=
  deploy_iso_properties _ _ (by decide) rfl rfl

/-- C8: destroying a nonexistent domain returns success without entering
the volume-deletion logic — zero volume lookups, zero volume deletions —
and the connection is still closed. -/
theorem delete_vm_missing_domain_noop (destroyOk undefineOk : Bool)
    (pool_and_vol_names : List (String × String)) (disk_paths : List String)
    (volByName : String × String → Option String)
    (volByPath : String → Option String) :
    delete_vm .noDomain destroyOk undefineOk pool_and_vol_names disk_paths
        volByName volByPath =
      ⟨0, [], true, .ok ()⟩ :=
  rfl

/-- C10: for every deploy configuration with ISO format and every
environment, the blank data disk is requested with capacity exactly
20 GB — the size is the literal constant 20 in `deploy_vm`, and no
`DeployVMConfig` field influences it — and when the disk does not
already exist the remote `qemu-img` invocation allocates `20G`. -/
theorem blank_disk_size_fixed (cfg : DeployVMConfig) (env : DeployEnv)
    (hiso : pyLower cfg.base_image_format = "iso") :
    (deploy_vm cfg env).blankDiskCall = some (cfg.domain_name, 20) ∧
    (env.blankDiskExists = false →
      (deploy_vm cfg env).blankDiskQemuCmd =
        some ["qemu-img", "create", "-f", "qcow2",
              cfg.pool_path ++ "/" ++ cfg.domain_name ++ ".qcow2", "20G"]) := by
  constructor
  · simp [deploy_vm, hiso]
  · intro hdisk
    simp only [deploy_vm, create_blank_disk, hiso, hdisk, if_true, if_false,
      Bool.false_eq_true, reduceIte]
    rfl

/-- Witness for `blank_disk_size_fixed` at a concrete ISO deploy
configuration. -/
theorem blank_disk_size_fixed_witness :
    (deploy_vm
        ⟨"kvm@host", "qemu+ssh://kvm@host/system", "/tmp/vm_spawner.x",
          "qemu:///system", "pool2", "dir", "/pools/p2", "/images/a.iso",
          some "00ff", "a.iso", "ISO", "/tmp/dl", "vm-2", 2048, 2,
          "default", some "isolated", "nixos-unstable", "/a/user.cfg",
          "/a/net.cfg", some ["--debug"]⟩
        ⟨true, false, true, true, true⟩).blankDiskCall = some ("vm-2", 20) ∧
    ((false : Bool) = false →
      (deploy_vm
          ⟨"kvm@host", "qemu+ssh://kvm@host/system", "/tmp/vm_spawner.x",
            "qemu:///system", "pool2", "dir", "/pools/p2", "/images/a.iso",
            some "00ff", "a.iso", "ISO", "/tmp/dl", "vm-2", 2048, 2,
            "default", some "isolated", "nixos-unstable", "/a/user.cfg",
            "/a/net.cfg", some ["--debug"]⟩
          ⟨true, false, true, true, true⟩).blankDiskQemuCmd =
        some ["qemu-img", "create", "-f", "qcow2",
              "/pools/p2" ++ "/" ++ "vm-2" ++ ".qcow2", "20G"]) :=
  blank_disk_size_fixed _ _ (by decide)

end VmSpawner
